import Mathlib

/-!
# openclaw-spot: the deployment program `main.go`

A shallow embedding of the Pulumi program in `src/main.go` and of the library
functions it calls on data (`strings.ReplaceAll`, `base64.StdEncoding`),
followed by the properties of the deployment pipeline.

* Go strings and `[]byte` are byte sequences: `GoString = List Byte`.
* The outside world of one run (configuration store, the two provider lookups,
  the file system, what each constructor returns and the engine's later answer to
  each registration) is an explicit `Env`; `main` is a total function from `Env`
  to the `Outcome` of the run: how it ended, which resources had been declared,
  which `ctx.Export` calls had been made.
* A constructor (`ec2.NewSecurityGroup`, ...) returns before the engine has
  answered: a registration the engine rejects does not make the constructor
  return an error, so the callback goes on; the run fails after the callback
  has returned.
* A deferred value (`pulumi.Output`) is the value it resolves to, or `none` when
  it never resolves; `ApplyT` is `Option.map`.
-/

set_option autoImplicit false

/-! ## Bytes and strings -/

/-- Go's `byte`. -/
abbrev Byte := Fin 256

/-- A Go `string` or `[]byte`: a sequence of bytes, not necessarily valid UTF-8. -/
abbrev GoString := List Byte

/-- The bytes of an ASCII string literal of the source. -/
def ascii (s : String) : GoString := s.toList.map (fun c => Fin.ofNat c.toNat)

/-- The byte `{`. -/
def lbrace : Byte := 123

/-- The byte `}`. -/
def rbrace : Byte := 125

/-! ## `encoding/base64`, `StdEncoding` -/

namespace base64

/-- The standard alphabet, `encodeStd` of Go's `encoding/base64`. -/
def encodeStd : GoString :=
  ascii "ABCDEFGHIJKLMNOPQRSTUVWXYZabcdefghijklmnopqrstuvwxyz0123456789+/"

/-- The padding character `=` (`StdPadding`). -/
def StdPadding : Byte := 61

/-- The table lookup `enc.encode[i]`. -/
def encode (i : Nat) : Byte := encodeStd.getD i 0

/-- The inverse table `enc.decodeMap`: the position of `c` in the alphabet, `none` for a
byte outside it (the table's `0xFF` entries). -/
def decodeMap (c : Byte) : Option Nat :=
  if encodeStd.indexOf c < 64 then some (encodeStd.indexOf c) else none

/-- Modelled from the spec: the re-encoding stage `encode`, which `main.go` takes from Go's
standard library as `base64.StdEncoding.EncodeToString` (lines 150 and 177); the library's
source is not part of the repository. Three source bytes become four alphabet characters; a
final block of one or two bytes is padded with `=` to four characters. -/
def EncodeToString : List Byte → GoString
  | [] => []
  | [a] =>
    let val := a.val <<< 16
    [encode (val >>> 18 &&& 0x3F), encode (val >>> 12 &&& 0x3F), StdPadding, StdPadding]
  | [a, b] =>
    let val := a.val <<< 16 ||| b.val <<< 8
    [encode (val >>> 18 &&& 0x3F), encode (val >>> 12 &&& 0x3F), encode (val >>> 6 &&& 0x3F),
      StdPadding]
  | a :: b :: c :: rest =>
    let val := a.val <<< 16 ||| b.val <<< 8 ||| c.val
    encode (val >>> 18 &&& 0x3F) :: encode (val >>> 12 &&& 0x3F) :: encode (val >>> 6 &&& 0x3F)
      :: encode (val &&& 0x3F) :: EncodeToString rest

/-- Modelled from the spec: the inverse stage `decode` of the spec's round-trip property,
standard padded base64 decoding (`base64.StdEncoding.DecodeString`); `main.go` never calls
it. Four characters become three bytes; `=` padding is accepted in the last block only; a
byte outside the alphabet or a length that is not a multiple of four is an error (`none`). -/
def DecodeString : GoString → Option (List Byte)
  | [] => some []
  | c0 :: c1 :: c2 :: c3 :: rest =>
    if c2 = StdPadding ∧ c3 = StdPadding ∧ rest = [] then
      match decodeMap c0, decodeMap c1 with
      | some d0, some d1 =>
        let val := d0 <<< 18 ||| d1 <<< 12
        some [Fin.ofNat (val >>> 16)]
      | _, _ => none
    else if c3 = StdPadding ∧ rest = [] then
      match decodeMap c0, decodeMap c1, decodeMap c2 with
      | some d0, some d1, some d2 =>
        let val := d0 <<< 18 ||| d1 <<< 12 ||| d2 <<< 6
        some [Fin.ofNat (val >>> 16), Fin.ofNat (val >>> 8)]
      | _, _, _ => none
    else
      match decodeMap c0, decodeMap c1, decodeMap c2, decodeMap c3, DecodeString rest with
      | some d0, some d1, some d2, some d3, some tail =>
        let val := d0 <<< 18 ||| d1 <<< 12 ||| d2 <<< 6 ||| d3
        some (Fin.ofNat (val >>> 16) :: Fin.ofNat (val >>> 8) :: Fin.ofNat val :: tail)
      | _, _, _, _, _ => none
  | _ => none

end base64

/-! ## `strings.ReplaceAll` -/

namespace strings

/-- The replacement loop of `strings.Replace` for a non-empty `old`: scan from the left;
where `old` starts, write `new` and skip the `old.length` bytes of the match (`skip` counts
the bytes of the current match still to be dropped), otherwise copy one byte. Matches are
therefore the leftmost non-overlapping ones, as `strings.Index` finds them. -/
def replaceLoop (old new : GoString) : Nat → GoString → GoString
  | _, [] => []
  | skip + 1, _ :: t => replaceLoop old new skip t
  | 0, c :: t =>
    if old.isPrefixOf (c :: t) then new ++ replaceLoop old new (old.length - 1) t
    else c :: replaceLoop old new 0 t

/-- Go's `strings.ReplaceAll(s, old, new)`: `s` with all non-overlapping instances of `old`
replaced by `new`; `s` itself when `old == new`. For an empty `old` Go inserts `new` at
every rune boundary; `main.go` only passes the four fixed non-empty markers, and that case
is left out here (`s` is returned). -/
def ReplaceAll (s old new : GoString) : GoString :=
  if old = new ∨ old = [] then s else replaceLoop old new 0 s

end strings

/-! ## The boot-script template -/

/-- The marker `{{.Name}}` of a placeholder. -/
def marker (name : GoString) : GoString := [lbrace, lbrace, 46] ++ name ++ [rbrace, rbrace]

/-- The render step of `main.go` (the function given to `ApplyT`, lines 162-174): four
successive `strings.ReplaceAll` calls on the template text. -/
def renderUserData (userDataTemplate : List Byte)
    (volID tsKey anthropic dockerComposeB64 : GoString) : GoString :=
  let script := userDataTemplate
  let script := strings.ReplaceAll script (ascii "{{.EBSVolumeID}}") volID
  let script := strings.ReplaceAll script (ascii "{{.TailscaleAuthKey}}") tsKey
  let script := strings.ReplaceAll script (ascii "{{.AnthropicApiKey}}") anthropic
  let script := strings.ReplaceAll script (ascii "{{.DockerComposeB64}}") dockerComposeB64
  script

/-- The four placeholder markers the render step substitutes. -/
def placeholderMarkers : List GoString :=
  [ascii "{{.EBSVolumeID}}", ascii "{{.TailscaleAuthKey}}", ascii "{{.AnthropicApiKey}}",
    ascii "{{.DockerComposeB64}}"]

/-- The spec's `Template` data model: a literal text segment or a named placeholder. -/
inductive Segment where
  | literal (text : GoString)
  | placeholder (name : GoString)
  deriving DecidableEq

/-- The text a segment stands for in a template file. -/
def Segment.text : Segment → GoString
  | .literal t => t
  | .placeholder n => marker n

/-- A literal holds no `{`; a placeholder name holds no brace. -/
def Segment.WellFormed : Segment → Prop
  | .literal t => lbrace ∉ t
  | .placeholder n => lbrace ∉ n ∧ rbrace ∉ n

/-- The template text of a sequence of segments. -/
def templateText : List Segment → GoString
  | [] => []
  | s :: rest => s.text ++ templateText rest

/-- What the render step makes of one segment: a placeholder with one of the four
recognised names becomes its value, any other segment is kept as it is. -/
def resolve (volID tsKey anthropic dockerComposeB64 : GoString) : Segment → Segment
  | .literal t => .literal t
  | .placeholder n =>
    if n = ascii "EBSVolumeID" then .literal volID
    else if n = ascii "TailscaleAuthKey" then .literal tsKey
    else if n = ascii "AnthropicApiKey" then .literal anthropic
    else if n = ascii "DockerComposeB64" then .literal dockerComposeB64
    else .placeholder n

/-- One substitution step on a segment: the placeholder named `name` becomes the literal
`value`, every other segment is kept. -/
def bindSeg (name value : GoString) : Segment → Segment
  | .literal t => .literal t
  | .placeholder n => if n = name then .literal value else .placeholder n

instance : DecidablePred Segment.WellFormed := fun s =>
  match s with
  | .literal t => inferInstanceAs (Decidable (lbrace ∉ t))
  | .placeholder n => inferInstanceAs (Decidable (lbrace ∉ n ∧ rbrace ∉ n))

/-! ## The declared resources -/

/-- A deferred value, `pulumi.Output`: the value it resolves to, or `none` when it never
resolves because the resource it comes from was rejected. -/
abbrev Output (α : Type) := Option α

/-- The fields `main.go` sets in `ec2.SecurityGroupEgressArgs`. -/
structure SecurityGroupEgressArgs where
  protocol : GoString
  fromPort : Int
  toPort : Int
  cidrBlocks : List GoString
  description : GoString
  deriving DecidableEq

/-- The fields `main.go` sets in `ec2.SecurityGroupArgs`. -/
structure SecurityGroupArgs where
  description : GoString
  egress : List SecurityGroupEgressArgs
  deriving DecidableEq

/-- The fields of `ebs.VolumeArgs` used by `main.go`; `snapshotId` is `none` while the
field is left unset. -/
structure VolumeArgs where
  availabilityZone : GoString
  size : Int
  volumeType : GoString
  tags : List (String × GoString)
  snapshotId : Option GoString
  deriving DecidableEq

/-- The field `main.go` sets in `iam.RoleArgs`. -/
structure RoleArgs where
  assumeRolePolicy : GoString
  deriving DecidableEq

/-- The fields `main.go` sets in `iam.RolePolicyArgs`. -/
structure RolePolicyArgs where
  role : Output GoString
  policy : GoString
  deriving DecidableEq

/-- The field `main.go` sets in `iam.InstanceProfileArgs`. -/
structure InstanceProfileArgs where
  role : Output GoString
  deriving DecidableEq

/-- The fields `main.go` sets in `ec2.LaunchTemplateBlockDeviceMappingArgs`. -/
structure LaunchTemplateBlockDeviceMappingArgs where
  deviceName : GoString
  volumeSize : Int
  volumeType : GoString
  deriving DecidableEq

/-- The fields `main.go` sets in `ec2.LaunchTemplateArgs`. -/
structure LaunchTemplateArgs where
  imageId : GoString
  instanceType : GoString
  userData : Output GoString
  vpcSecurityGroupIds : List (Output GoString)
  iamInstanceProfileArn : Output GoString
  blockDeviceMappings : List LaunchTemplateBlockDeviceMappingArgs
  tags : List (String × GoString)
  deriving DecidableEq

/-- The fields `main.go` sets in `autoscaling.GroupTagArgs`. -/
structure GroupTagArgs where
  key : GoString
  value : GoString
  propagateAtLaunch : Bool
  deriving DecidableEq

/-- The fields `main.go` sets in `autoscaling.GroupArgs`, the mixed-instances policy
flattened. -/
structure GroupArgs where
  minSize : Int
  maxSize : Int
  desiredCapacity : Int
  availabilityZones : List GoString
  capacityRebalance : Bool
  onDemandBaseCapacity : Int
  onDemandPercentageAboveBaseCapacity : Int
  spotAllocationStrategy : GoString
  launchTemplateId : Output GoString
  launchTemplateVersion : GoString
  tags : List GroupTagArgs
  deriving DecidableEq

/-- A resource declaration: the constructor called, the resource's name, its arguments. -/
inductive Resource where
  | securityGroup (name : String) (args : SecurityGroupArgs)
  | volume (name : String) (args : VolumeArgs)
  | role (name : String) (args : RoleArgs)
  | rolePolicy (name : String) (args : RolePolicyArgs)
  | instanceProfile (name : String) (args : InstanceProfileArgs)
  | launchTemplate (name : String) (args : LaunchTemplateArgs)
  | group (name : String) (args : GroupArgs)
  deriving DecidableEq

/-- The outputs of a resource the engine has accepted, as far as `main.go` reads them. -/
structure Handle where
  id : GoString
  name : GoString
  arn : GoString
  deriving DecidableEq

deriving instance DecidableEq for Except

/-- A resource as the program holds it once its constructor has returned (`sg`, `volume`,
...): its outputs follow the engine's answer to the registration, which arrives later. -/
structure Registered where
  answer : Except String Handle
  deriving DecidableEq

/-- The output `ID()`: it resolves only when the engine accepts the resource. -/
def Registered.ID (r : Registered) : Output GoString :=
  match r.answer with
  | .ok h => some h.id
  | .error _ => none

/-- The output `Name`. -/
def Registered.Name (r : Registered) : Output GoString :=
  match r.answer with
  | .ok h => some h.name
  | .error _ => none

/-- The output `Arn`. -/
def Registered.Arn (r : Registered) : Output GoString :=
  match r.answer with
  | .ok h => some h.arn
  | .error _ => none

/-- The result of `ec2.LookupAmi` as far as `main.go` reads it. -/
structure LookupAmiResult where
  id : GoString
  deriving DecidableEq

/-- The result of `aws.GetAvailabilityZones` as far as `main.go` reads it. -/
structure GetAvailabilityZonesResult where
  names : List GoString
  deriving DecidableEq

/-! ## The environment of a run and its outcome -/

/-- Everything outside the program that one run of `main.go` depends on. -/
structure Env where
  /-- The configuration store under the namespace `openclaw-vps`: `none` for a key
  that is not set. -/
  config : String → Option GoString
  /-- What `ec2.LookupAmi` answers for the fixed Ubuntu 24.04 filter: the image, or
  the error it reports (also when no image matches). -/
  lookupAmi : Except String LookupAmiResult
  /-- What `aws.GetAvailabilityZones` answers. -/
  getAvailabilityZones : Except String GetAvailabilityZonesResult
  /-- What `os.ReadFile` answers for a path. -/
  readFile : String → Except String (List Byte)
  /-- The error a constructor itself returns (`sg, err := ec2.NewSecurityGroup(...)`):
  what the SDK can tell before anything is sent to the engine, never the engine's
  rejection; `none` for a call the SDK accepts. -/
  construct : Resource → Option String
  /-- The engine's answer to a registration, which arrives after the constructor has
  returned: the outputs, or the error with which the registration fails (the engine
  rejects the resource, or one of its inputs never resolves). -/
  register : Resource → Except String Handle

/-- How a run can fail. -/
inductive RunError where
  /-- The failure of `cfg.RequireSecret` on a key that is not set (the SDK panics). -/
  | missingConfiguration (key : String)
  /-- `return err`. -/
  | returned (err : String)
  /-- `return fmt.Errorf("<context>: %w", err)`. -/
  | wrapped (context : String) (err : String)
  /-- The runtime panic of `azs.Names[0]` on an empty list. -/
  | indexOutOfRange
  /-- The callback returned `nil`, and the run fails afterwards because the engine
  rejected registrations (their errors, in the order of declaration). -/
  | rejected (errs : List String)
  deriving DecidableEq

/-- The observable outcome of a run: how it ended, the resources declared (the constructor
calls that returned without error) in order, and the `ctx.Export` calls the callback made,
each with the deferred value exported. -/
structure Outcome where
  result : Except RunError Unit
  declared : List Resource
  exports : List (String × Output GoString)

/-- `cfg.Get(key)`: the value, or the empty string for a key that is not set. -/
def cfgGet (env : Env) (key : String) : GoString := (env.config key).getD []

/-- A run whose callback stops with `err` after the resources `declared`, before any
`ctx.Export`. -/
def abort (err : RunError) (declared : List Resource) : Outcome :=
  { result := .error err, declared := declared, exports := [] }

/-- A constructor call (`ec2.NewSecurityGroup`, `ebs.NewVolume`, ...): the error the
constructor returns, or the resource, whose registration the engine answers later. -/
def New (env : Env) (r : Resource) : Except String Registered :=
  match env.construct r with
  | some err => .error err
  | none => .ok { answer := env.register r }

/-- The errors of the registrations the engine rejected. -/
def rejections : List Registered → List String
  | [] => []
  | r :: rs =>
    match r.answer with
    | .error e => e :: rejections rs
    | .ok _ => rejections rs

/-- How a run ends whose callback returned `nil` after the registrations `rs`: it succeeds
when the engine accepts them all and fails otherwise. -/
def finish (rs : List Registered) : Except RunError Unit :=
  match rejections rs with
  | [] => .ok ()
  | e :: es => .error (.rejected (e :: es))

/-- The raw string literal `assumeRolePolicy` (lines 94-101). -/
def assumeRolePolicy : GoString :=
  ascii "\x7b\n\t\t\t\"Version\": \"2012-10-17\",\n\t\t\t\"Statement\": [\x7b\n\t\t\t\t\"Effect\": \"Allow\",\n\t\t\t\t\"Principal\": \x7b\"Service\": \"ec2.amazonaws.com\"\x7d,\n\t\t\t\t\"Action\": \"sts:AssumeRole\"\n\t\t\t\x7d]\n\t\t\x7d"

/-- The raw string literal of the role policy (lines 113-128). -/
def ebsPolicy : GoString :=
  ascii "\x7b\n\t\t\t\t\"Version\": \"2012-10-17\",\n\t\t\t\t\"Statement\": [\x7b\n\t\t\t\t\t\"Effect\": \"Allow\",\n\t\t\t\t\t\"Action\": [\n\t\t\t\t\t\t\"ec2:AttachVolume\",\n\t\t\t\t\t\t\"ec2:DetachVolume\",\n\t\t\t\t\t\t\"ec2:DescribeVolumes\",\n\t\t\t\t\t\t\"ec2:CreateSnapshot\",\n\t\t\t\t\t\t\"ec2:DeleteSnapshot\",\n\t\t\t\t\t\t\"ec2:DescribeSnapshots\",\n\t\t\t\t\t\t\"ec2:CreateTags\"\n\t\t\t\t\t],\n\t\t\t\t\t\"Resource\": \"*\"\n\t\t\t\t\x7d]\n\t\t\t\x7d"

/-- The security group declaration (lines 51-62). -/
def securityGroupDecl : Resource :=
  .securityGroup "openclaw-sg"
    { description := ascii "OpenClaw VPS - no inbound traffic"
      egress := [{ protocol := ascii "-1", fromPort := 0, toPort := 0
                   cidrBlocks := [ascii "0.0.0.0/0"]
                   description := ascii "Allow all outbound" }] }

/-- The volume declaration (lines 77-88): `SnapshotId` is set only for a non-empty
`snapshotId`. -/
def volumeDecl (az snapshotId : GoString) : Resource :=
  let volumeArgs : VolumeArgs :=
    { availabilityZone := az, size := 20, volumeType := ascii "gp3"
      tags := [("Name", ascii "openclaw-data")], snapshotId := none }
  let volumeArgs :=
    if snapshotId ≠ [] then { volumeArgs with snapshotId := some snapshotId } else volumeArgs
  .volume "openclaw-data" volumeArgs

/-- The role declaration (lines 103-105). -/
def roleDecl : Resource :=
  .role "openclaw-role" { assumeRolePolicy := assumeRolePolicy }

/-- The role policy declaration (lines 111-129). -/
def rolePolicyDecl (role : Registered) : Resource :=
  .rolePolicy "openclaw-ebs-policy" { role := role.Name, policy := ebsPolicy }

/-- The instance profile declaration (lines 134-140). -/
def instanceProfileDecl (role : Registered) : Resource :=
  .instanceProfile "openclaw-profile" { role := role.Name }

/-- The launch template declaration (lines 181-203). -/
def launchTemplateDecl (ami : LookupAmiResult) (instanceType : GoString)
    (userDataB64 : Output GoString) (sg instanceProfile : Registered) : Resource :=
  .launchTemplate "openclaw-lt"
    { imageId := ami.id
      instanceType := instanceType
      userData := userDataB64
      vpcSecurityGroupIds := [sg.ID]
      iamInstanceProfileArn := instanceProfile.Arn
      blockDeviceMappings :=
        [{ deviceName := ascii "/dev/sda1", volumeSize := 20, volumeType := ascii "gp3" }]
      tags := [("Name", ascii "openclaw-vps")] }

/-- The scaling group declaration (lines 209-237). -/
def groupDecl (az : GoString) (lt : Registered) : Resource :=
  .group "openclaw-asg"
    { minSize := 0
      maxSize := 1
      desiredCapacity := 1
      availabilityZones := [az]
      capacityRebalance := true
      onDemandBaseCapacity := 0
      onDemandPercentageAboveBaseCapacity := 0
      spotAllocationStrategy := ascii "price-capacity-optimized"
      launchTemplateId := lt.ID
      launchTemplateVersion := ascii "$Latest"
      tags := [{ key := ascii "Name", value := ascii "openclaw-vps", propagateAtLaunch := true }] }

/-- The callback given to `pulumi.Run` in `main.go`, statement by statement, and the end
of the run. Each `abort` carries the resources declared before it. A constructor's `err` is
the constructor's own (`New`), so an engine rejection does not take the `return err`
branch: the callback goes on to its end, all four `ctx.Export` calls included, and the run
fails afterwards (`finish`). -/
def Openclaw.main (env : Env) : Outcome :=
  let instanceType := cfgGet env "instanceType"
  let instanceType := if instanceType = [] then ascii "t3.medium" else instanceType
  match env.config "tailscaleAuthKey" with
  | none => abort (.missingConfiguration "tailscaleAuthKey") []
  | some tailscaleAuthKey =>
  match env.config "anthropicApiKey" with
  | none => abort (.missingConfiguration "anthropicApiKey") []
  | some anthropicApiKey =>
  let snapshotId := cfgGet env "snapshotId"
  match env.lookupAmi with
  | .error err => abort (.returned err) []
  | .ok ami =>
  match New env securityGroupDecl with
  | .error err => abort (.returned err) []
  | .ok sg =>
  let declared := [securityGroupDecl]
  match env.getAvailabilityZones with
  | .error err => abort (.returned err) declared
  | .ok azs =>
  match azs.names with
  | [] => abort .indexOutOfRange declared
  | az :: _ =>
  match New env (volumeDecl az snapshotId) with
  | .error err => abort (.returned err) declared
  | .ok volume =>
  let declared := declared ++ [volumeDecl az snapshotId]
  match New env roleDecl with
  | .error err => abort (.returned err) declared
  | .ok role =>
  let declared := declared ++ [roleDecl]
  match New env (rolePolicyDecl role) with
  | .error err => abort (.returned err) declared
  | .ok rolePolicy =>
  let declared := declared ++ [rolePolicyDecl role]
  match New env (instanceProfileDecl role) with
  | .error err => abort (.returned err) declared
  | .ok instanceProfile =>
  let declared := declared ++ [instanceProfileDecl role]
  match env.readFile "docker-compose.yml" with
  | .error err => abort (.wrapped "reading docker-compose.yml" err) declared
  | .ok dockerCompose =>
  let dockerComposeB64 := base64.EncodeToString dockerCompose
  match env.readFile "user-data.sh" with
  | .error err => abort (.wrapped "reading user-data.sh" err) declared
  | .ok userDataTemplate =>
  let userData : Output GoString :=
    volume.ID.map fun volID =>
      renderUserData userDataTemplate volID tailscaleAuthKey anthropicApiKey dockerComposeB64
  let userDataB64 : Output GoString := userData.map base64.EncodeToString
  match New env (launchTemplateDecl ami instanceType userDataB64 sg instanceProfile) with
  | .error err => abort (.returned err) declared
  | .ok lt =>
  let declared :=
    declared ++ [launchTemplateDecl ami instanceType userDataB64 sg instanceProfile]
  match New env (groupDecl az lt) with
  | .error err => abort (.returned err) declared
  | .ok asg =>
  { result := finish [sg, volume, role, rolePolicy, instanceProfile, lt, asg]
    declared := declared ++ [groupDecl az lt]
    exports := [("asgName", asg.Name), ("volumeId", volume.ID), ("securityGroupId", sg.ID),
      ("availabilityZone", some az)] }

/-! ## Concrete environments -/

/-- The engine's answers used in the concrete runs below: every registration is
accepted. -/
def acceptAll (r : Resource) : Except String Handle :=
  match r with
  | .securityGroup _ _ => .ok { id := ascii "sg-1", name := ascii "openclaw-sg-1", arn := [] }
  | .volume _ _ => .ok { id := ascii "vol-1", name := ascii "openclaw-data-1", arn := [] }
  | .role _ _ => .ok { id := ascii "role-1", name := ascii "openclaw-role-1", arn := [] }
  | .rolePolicy _ _ => .ok { id := ascii "pol-1", name := ascii "openclaw-ebs-policy-1", arn := [] }
  | .instanceProfile _ _ =>
    .ok { id := ascii "prof-1", name := ascii "openclaw-profile-1", arn := ascii "arn:prof-1" }
  | .launchTemplate _ _ => .ok { id := ascii "lt-1", name := ascii "openclaw-lt-1", arn := [] }
  | .group _ _ => .ok { id := ascii "asg-1", name := ascii "openclaw-asg-1", arn := [] }

/-- A run in which everything succeeds: both secrets set, `instanceType` and `snapshotId`
unset, two availability zones, both files readable. -/
def sampleEnv : Env :=
  { config := fun k =>
      if k = "tailscaleAuthKey" then some (ascii "tskey-1")
      else if k = "anthropicApiKey" then some (ascii "sk-ant-1")
      else none
    lookupAmi := .ok { id := ascii "ami-1" }
    getAvailabilityZones := .ok { names := [ascii "eu-north-1a", ascii "eu-north-1b"] }
    readFile := fun p =>
      if p = "docker-compose.yml" then .ok (ascii "services: x")
      else if p = "user-data.sh" then .ok (ascii "mount {{.EBSVolumeID}}; up {{.TailscaleAuthKey}}")
      else .error "no such file"
    construct := fun _ => none
    register := acceptAll }

/-- The run of `sampleEnv` with `instanceType` set to `t3.large` and `snapshotId` to
`snap-123`. -/
def configuredEnv : Env :=
  { sampleEnv with
    config := fun k =>
      if k = "instanceType" then some (ascii "t3.large")
      else if k = "snapshotId" then some (ascii "snap-123")
      else sampleEnv.config k }

/-- The run of `sampleEnv` without `tailscaleAuthKey`. -/
def missingTailscaleEnv : Env :=
  { sampleEnv with
    config := fun k => if k = "anthropicApiKey" then some (ascii "sk-ant-1") else none }

/-- The run of `sampleEnv` in which the machine-image lookup finds nothing. -/
def noAmiEnv : Env :=
  { sampleEnv with lookupAmi := .error "no matching AMI" }

/-- The run of `sampleEnv` in which the availability-zone lookup fails. -/
def zoneLookupFailsEnv : Env :=
  { sampleEnv with getAvailabilityZones := .error "zones unavailable" }

/-- The run of `sampleEnv` in which the availability-zone lookup returns no zone. -/
def noZoneEnv : Env :=
  { sampleEnv with getAvailabilityZones := .ok { names := [] } }

/-- The run of `sampleEnv` in which `docker-compose.yml` cannot be read. -/
def unreadableComposeEnv : Env :=
  { sampleEnv with
    readFile := fun p =>
      if p = "user-data.sh" then .ok (ascii "mount {{.EBSVolumeID}}") else .error "no such file" }

/-- The run of `sampleEnv` in which `user-data.sh` cannot be read. -/
def unreadableUserDataEnv : Env :=
  { sampleEnv with
    readFile := fun p =>
      if p = "docker-compose.yml" then .ok (ascii "services: x") else .error "no such file" }

/-- The run of `sampleEnv` with a boot script that names a placeholder the render step
does not know. -/
def unknownPlaceholderEnv : Env :=
  { sampleEnv with
    readFile := fun p =>
      if p = "docker-compose.yml" then .ok (ascii "services: x")
      else if p = "user-data.sh" then .ok (ascii "echo {{.Foo}}")
      else .error "no such file" }

/-- The run of `sampleEnv` in which the engine rejects the role policy. -/
def policyRejectedEnv : Env :=
  { sampleEnv with
    register := fun r =>
      match r with
      | .rolePolicy _ _ => .error "policy rejected"
      | _ => acceptAll r }

/-- A well-formed template: `mount {{.EBSVolumeID}}; echo {{.Foo}}`. -/
def sampleSegments : List Segment :=
  [.literal (ascii "mount "), .placeholder (ascii "EBSVolumeID"), .literal (ascii "; echo "),
    .placeholder (ascii "Foo")]

/-! # Theorems -/

open Openclaw strings

/-! ## Base64 -/

/-- A left shift or-ed with a value below the shift's weight is their sum. -/
theorem shl_or (a b i : Nat) (h : b < 2 ^ i) : a <<< i ||| b = a * 2 ^ i + b := by
  rw [Nat.shiftLeft_eq, Nat.mul_comm, ← Nat.mul_add_lt_is_or h]

/-- The 16-bit value of two bytes, as arithmetic. -/
theorem or2 (a b : Nat) (hb : b < 256) : a <<< 16 ||| b <<< 8 = a * 65536 + b * 256 := by
  rw [shl_or _ _ 16 (by simp only [Nat.shiftLeft_eq]; omega)]
  simp only [Nat.shiftLeft_eq]
  omega

/-- The 24-bit value `val` of three bytes, as arithmetic. -/
theorem or3 (a b c : Nat) (hb : b < 256) (hc : c < 256) :
    a <<< 16 ||| b <<< 8 ||| c = a * 65536 + b * 256 + c := by
  have h1 : a * 65536 + b * 256 = (a * 256 + b) <<< 8 := by
    simp only [Nat.shiftLeft_eq]
    omega
  rw [or2 a b hb, h1, shl_or _ c 8 (by omega)]
  omega

/-- The 24-bit value of four sextets, as arithmetic. -/
theorem or4 (a b c d : Nat) (hb : b < 64) (hc : c < 64) (hd : d < 64) :
    a <<< 18 ||| b <<< 12 ||| c <<< 6 ||| d = a * 262144 + b * 4096 + c * 64 + d := by
  have e1 : b <<< 12 = b * 4096 := by simp [Nat.shiftLeft_eq]
  have e2 : c <<< 6 = c * 64 := by simp [Nat.shiftLeft_eq]
  have h1 : a <<< 18 ||| b <<< 12 = (a * 64 + b) <<< 12 := by
    rw [shl_or a (b <<< 12) 18 (by omega)]
    simp only [Nat.shiftLeft_eq]
    omega
  have h2 : (a * 64 + b) <<< 12 ||| c <<< 6 = (a * 4096 + b * 64 + c) <<< 6 := by
    rw [shl_or _ (c <<< 6) 12 (by omega)]
    simp only [Nat.shiftLeft_eq]
    omega
  rw [h1, h2, shl_or _ d 6 (by omega)]
  omega

/-- Masking with `0x3F` is the remainder modulo 64. -/
theorem and63 (x : Nat) : x &&& 0x3F = x % 64 := Nat.and_pow_two_sub_one_eq_mod x 6

/-- Every alphabet character decodes to its index, and is neither `=` nor `{`. -/
theorem encode_table : ∀ i : Fin 64, base64.decodeMap (base64.encode i.val) = some i.val
    ∧ base64.encode i.val ≠ base64.StdPadding ∧ base64.encode i.val ≠ lbrace := by
  decide

/-- The decode table inverts the encode table. -/
theorem decodeMap_encode (x : Nat) :
    base64.decodeMap (base64.encode (x % 64)) = some (x % 64) :=
  (encode_table ⟨x % 64, Nat.mod_lt _ (by decide)⟩).1

/-- An alphabet character is not the padding character. -/
theorem encode_ne_pad (x : Nat) : base64.encode (x % 64) ≠ base64.StdPadding :=
  (encode_table ⟨x % 64, Nat.mod_lt _ (by decide)⟩).2.1

/-- An alphabet character is not `{`. -/
theorem encode_ne_lbrace (x : Nat) : base64.encode (x % 64) ≠ lbrace :=
  (encode_table ⟨x % 64, Nat.mod_lt _ (by decide)⟩).2.2

/-- C2: the re-encoding stage is invertible. For every byte sequence `b` (the empty one
and bytes that are not valid UTF-8 included: a `Byte` is any value below 256), decoding the
standard padded base64 encoding of `b` succeeds and gives `b` back. -/
theorem base64_roundtrip : ∀ b : List Byte,
    base64.DecodeString (base64.EncodeToString b) = some b
  | [] => rfl
  | [a] => by
    have ha := a.isLt
    have h := or4 (a.val <<< 16 / 2 ^ 18 % 64) (a.val <<< 16 / 2 ^ 12 % 64) 0 0
      (Nat.mod_lt _ (by decide)) (by decide) (by decide)
    simp only [Nat.zero_shiftLeft, Nat.or_zero] at h
    simp only [base64.EncodeToString, base64.DecodeString, and63, Nat.shiftRight_eq_div_pow,
      and_self, ↓reduceIte, decodeMap_encode, h]
    congr 2
    apply Fin.ext
    simp only [Fin.ofNat, Fin.val_mk, Nat.shiftLeft_eq]
    omega
  | [a, b] => by
    have ha := a.isLt
    have hb := b.isLt
    simp only [base64.EncodeToString, base64.DecodeString, and63, Nat.shiftRight_eq_div_pow,
      encode_ne_pad, false_and, and_self, ↓reduceIte, decodeMap_encode, or2 _ _ hb]
    have h := or4 ((a.val * 65536 + b.val * 256) / 2 ^ 18 % 64)
      ((a.val * 65536 + b.val * 256) / 2 ^ 12 % 64) ((a.val * 65536 + b.val * 256) / 2 ^ 6 % 64) 0
      (Nat.mod_lt _ (by decide)) (Nat.mod_lt _ (by decide)) (by decide)
    rw [Nat.or_zero, Nat.add_zero] at h
    rw [h]
    congr 2
    · apply Fin.ext
      simp only [Fin.ofNat, Fin.val_mk]
      omega
    · congr 1
      apply Fin.ext
      simp only [Fin.ofNat, Fin.val_mk]
      omega
  | a :: b :: c :: rest => by
    have ha := a.isLt
    have hb := b.isLt
    have hc := c.isLt
    have ih := base64_roundtrip rest
    simp only [base64.EncodeToString, base64.DecodeString, and63, Nat.shiftRight_eq_div_pow,
      encode_ne_pad, false_and, and_false, ↓reduceIte, decodeMap_encode, ih, or3 _ _ _ hb hc]
    rw [or4 _ _ _ _ (Nat.mod_lt _ (by decide)) (Nat.mod_lt _ (by decide))
      (Nat.mod_lt _ (by decide))]
    congr 2
    · apply Fin.ext
      simp only [Fin.ofNat, Fin.val_mk]
      omega
    · congr 1
      · apply Fin.ext
        simp only [Fin.ofNat, Fin.val_mk]
        omega
      · congr 1
        apply Fin.ext
        simp only [Fin.ofNat, Fin.val_mk]
        omega

/-- The round trip at the empty input and at bytes that are not valid UTF-8. -/
theorem base64_roundtrip_witness :
    base64.DecodeString (base64.EncodeToString []) = some [] ∧
    base64.DecodeString (base64.EncodeToString [255, 254, 253, 0]) = some [255, 254, 253, 0] :=
  ⟨base64_roundtrip [], base64_roundtrip [255, 254, 253, 0]⟩

/-- Known answers of standard padded base64, with `==` and with `=` padding, in both
directions. -/
theorem base64_known_answers :
    base64.DecodeString (base64.EncodeToString []) = some [] ∧
    base64.EncodeToString [255, 254, 253, 0] = ascii "//79AA==" ∧
    base64.DecodeString (ascii "//79AA==") = some [255, 254, 253, 0] ∧
    base64.EncodeToString (ascii "hello world") = ascii "aGVsbG8gd29ybGQ=" ∧
    base64.DecodeString (ascii "aGVsbG8gd29ybGQ=") = some (ascii "hello world") := by
  decide

/-- The encoder's output never holds a `{`. -/
theorem lbrace_not_mem_EncodeToString : ∀ b : List Byte, lbrace ∉ base64.EncodeToString b
  | [] => by simp [base64.EncodeToString]
  | [a] => by
    have hp : ¬ lbrace = base64.StdPadding := by decide
    simp only [base64.EncodeToString, and63, List.mem_cons, List.not_mem_nil, or_false, hp, not_or]
    exact ⟨fun e => encode_ne_lbrace _ e.symm, fun e => encode_ne_lbrace _ e.symm⟩
  | [a, b] => by
    have hp : ¬ lbrace = base64.StdPadding := by decide
    simp only [base64.EncodeToString, and63, List.mem_cons, List.not_mem_nil, or_false, hp, not_or]
    exact ⟨fun e => encode_ne_lbrace _ e.symm, fun e => encode_ne_lbrace _ e.symm,
      fun e => encode_ne_lbrace _ e.symm⟩
  | a :: b :: c :: rest => by
    have ih := lbrace_not_mem_EncodeToString rest
    simp only [base64.EncodeToString, and63, List.mem_cons, not_or]
    exact ⟨fun e => encode_ne_lbrace _ e.symm, fun e => encode_ne_lbrace _ e.symm,
      fun e => encode_ne_lbrace _ e.symm, fun e => encode_ne_lbrace _ e.symm, ih⟩

/-! ## The render step on a well-formed template -/

/-- No marker starts at a byte other than `{`. -/
theorem isPrefixOf_marker_of_ne (A t : GoString) (c : Byte) (h : c ≠ lbrace) :
    (marker A).isPrefixOf (c :: t) = false := by
  have h2 : ¬ lbrace = c := fun e => h e.symm
  simp [marker, List.isPrefixOf, h2]

/-- No marker starts at the second brace of a marker. -/
theorem isPrefixOf_marker_dot (A t : GoString) :
    (marker A).isPrefixOf (lbrace :: 46 :: t) = false := by
  have h2 : ¬ lbrace = (46 : Byte) := by decide
  simp [marker, List.isPrefixOf, h2]

/-- Two brace-free names followed by `}}` match only when they are equal. -/
theorem isPrefixOf_name (rest : GoString) : ∀ (A n : GoString), rbrace ∉ A → rbrace ∉ n → n ≠ A →
    (A ++ [rbrace, rbrace]).isPrefixOf (n ++ [rbrace, rbrace] ++ rest) = false
  | [], [], _, _, hne => absurd rfl hne
  | [], x :: n, _, hn, _ => by
    have hx : ¬ rbrace = x := fun e => hn (by simp [e])
    simp [List.isPrefixOf, hx]
  | a :: A, [], hA, _, _ => by
    have ha : ¬ a = rbrace := fun e => hA (by simp [e])
    simp [List.isPrefixOf, ha]
  | a :: A, x :: n, hA, hn, hne => by
    have hA2 : rbrace ∉ A := fun h => hA (List.mem_cons_of_mem _ h)
    have hn2 : rbrace ∉ n := fun h => hn (List.mem_cons_of_mem _ h)
    by_cases hax : a = x
    · subst hax
      have hne2 : n ≠ A := fun e => hne (by rw [e])
      have ih := isPrefixOf_name rest A n hA2 hn2 hne2
      simpa [List.isPrefixOf] using ih
    · simp [List.isPrefixOf, hax]

/-- The marker of `A` does not start where the marker of another name starts. -/
theorem isPrefixOf_marker_other (A n rest : GoString) (hA : rbrace ∉ A) (hn : rbrace ∉ n)
    (hne : n ≠ A) : (marker A).isPrefixOf (marker n ++ rest) = false := by
  have h := isPrefixOf_name rest A n hA hn hne
  simpa [marker, List.isPrefixOf] using h

/-- The loop copies a literal that holds no `{`. -/
theorem replaceLoop_literal (A new rest : GoString) : ∀ t : GoString, lbrace ∉ t →
    replaceLoop (marker A) new 0 (t ++ rest) = t ++ replaceLoop (marker A) new 0 rest
  | [], _ => rfl
  | c :: t, h => by
    have hc : c ≠ lbrace := fun e => h (by simp [e])
    have ht : lbrace ∉ t := fun m => h (List.mem_cons_of_mem _ m)
    simp [replaceLoop, isPrefixOf_marker_of_ne A _ c hc, replaceLoop_literal A new rest t ht]

/-- Skipping exactly the bytes still to be dropped resumes the scan behind them. -/
theorem replaceLoop_skip (old new rest : GoString) : ∀ xs : GoString,
    replaceLoop old new xs.length (xs ++ rest) = replaceLoop old new 0 rest
  | [] => by simp
  | x :: xs => by
    simp [replaceLoop, replaceLoop_skip old new rest xs]

/-- At an occurrence of the marker the loop writes the value and resumes behind it. -/
theorem replaceLoop_marker_same (A new rest : GoString) :
    replaceLoop (marker A) new 0 (marker A ++ rest) = new ++ replaceLoop (marker A) new 0 rest := by
  have hp : (marker A).isPrefixOf (marker A ++ rest) = true := by
    rw [ List.isPrefixOf_iff_prefix]
    exact List.prefix_append _ _
  have hm : marker A = lbrace :: (lbrace :: 46 :: (A ++ [rbrace, rbrace])) := by simp [marker]
  have hl : (marker A).length - 1 = (lbrace :: 46 :: (A ++ [rbrace, rbrace])).length := by
    rw [hm]; simp
  have hs := replaceLoop_skip (marker A) new rest (lbrace :: 46 :: (A ++ [rbrace, rbrace]))
  rw [← hl] at hs
  have hcons : marker A ++ rest = lbrace :: ((lbrace :: 46 :: (A ++ [rbrace, rbrace])) ++ rest) := by
    rw [hm]; rfl
  rw [hcons, replaceLoop, ← hcons, hp]
  simp only [↓reduceIte]
  rw [hs]

/-- The loop copies the marker of another name. -/
theorem replaceLoop_marker_other (A n new rest : GoString) (hA : rbrace ∉ A)
    (hn : lbrace ∉ n ∧ rbrace ∉ n) (hne : n ≠ A) :
    replaceLoop (marker A) new 0 (marker n ++ rest)
      = marker n ++ replaceLoop (marker A) new 0 rest := by
  have h0 := isPrefixOf_marker_other A n rest hA hn.2 hne
  have hcons : marker n ++ rest = lbrace :: (lbrace :: (((46 : Byte) :: (n ++ [rbrace, rbrace])) ++ rest)) := by
    simp [marker]
  have h1 := isPrefixOf_marker_dot A ((n ++ [rbrace, rbrace]) ++ rest)
  have hlit : lbrace ∉ ((46 : Byte) :: (n ++ [rbrace, rbrace])) := by
    intro hm
    simp only [List.mem_cons, List.mem_append, List.mem_singleton, List.not_mem_nil, or_false] at hm
    rcases hm with h | h | h | h
    · exact absurd h (by decide)
    · exact hn.1 h
    · exact absurd h (by decide)
    · exact absurd h (by decide)
  have h2 := replaceLoop_literal A new rest _ hlit
  rw [hcons] at h0 ⊢
  rw [replaceLoop, h0]
  simp only [Bool.false_eq_true, ↓reduceIte]
  rw [replaceLoop]
  simp only [List.cons_append] at h1 h2 ⊢
  rw [h1]
  simp only [Bool.false_eq_true, ↓reduceIte]
  rw [h2]
  simp [marker]

/-- On a well-formed template the loop substitutes segment by segment. -/
theorem replaceLoop_template (A new : GoString) (hA : rbrace ∉ A) : ∀ segs : List Segment,
    (∀ s ∈ segs, s.WellFormed) →
    replaceLoop (marker A) new 0 (templateText segs) = templateText (segs.map (bindSeg A new))
  | [], _ => rfl
  | .literal t :: segs, h => by
    have ht : lbrace ∉ t := h (.literal t) (List.mem_cons_self _ _)
    have ih := replaceLoop_template A new hA segs (fun s hs => h s (List.mem_cons_of_mem _ hs))
    simp [templateText, Segment.text, bindSeg, replaceLoop_literal A new _ t ht, ih]
  | .placeholder n :: segs, h => by
    have hn : lbrace ∉ n ∧ rbrace ∉ n := h (.placeholder n) (List.mem_cons_self _ _)
    have ih := replaceLoop_template A new hA segs (fun s hs => h s (List.mem_cons_of_mem _ hs))
    by_cases hne : n = A
    · subst hne
      simp [templateText, Segment.text, bindSeg, replaceLoop_marker_same, ih]
    · simp [templateText, Segment.text, bindSeg, hne,
        replaceLoop_marker_other A n new _ hA hn hne, ih]

/-- Binding a name to its own marker leaves the text unchanged. -/
theorem templateText_bindSeg_self (A : GoString) : ∀ segs : List Segment,
    templateText (segs.map (bindSeg A (marker A))) = templateText segs
  | [] => rfl
  | .literal t :: segs => by
    simp [templateText, Segment.text, bindSeg, templateText_bindSeg_self A segs]
  | .placeholder n :: segs => by
    by_cases hne : n = A
    · subst hne
      simp [templateText, Segment.text, bindSeg, templateText_bindSeg_self n segs]
    · simp [templateText, Segment.text, bindSeg, hne, templateText_bindSeg_self A segs]

/-- On a well-formed template `ReplaceAll` of a marker substitutes segment by segment. -/
theorem ReplaceAll_template (A new : GoString) (hA : rbrace ∉ A) (segs : List Segment)
    (h : ∀ s ∈ segs, s.WellFormed) :
    ReplaceAll (templateText segs) (marker A) new = templateText (segs.map (bindSeg A new)) := by
  unfold ReplaceAll
  by_cases he : marker A = new
  · subst he
    simp [templateText_bindSeg_self]
  · have hm : marker A ≠ [] := by simp [marker]
    simp only [he, hm, or_self, ↓reduceIte]
    exact replaceLoop_template A new hA segs h

/-- Binding a value that holds no `{` keeps a template well-formed. -/
theorem bindSeg_wellFormed (A new : GoString) (hnew : lbrace ∉ new) (segs : List Segment)
    (h : ∀ s ∈ segs, s.WellFormed) : ∀ s ∈ segs.map (bindSeg A new), s.WellFormed := by
  intro s hs
  rw [List.mem_map] at hs
  obtain ⟨s0, hs0, rfl⟩ := hs
  have h0 := h s0 hs0
  cases s0 with
  | literal t => exact h0
  | placeholder n =>
    by_cases hne : n = A
    · simp [bindSeg, hne, Segment.WellFormed, hnew]
    · simpa [bindSeg, hne] using h0

/-- The four substitution steps in the order of `main.go` amount to `resolve`. -/
theorem bindSeg_resolve (volID tsKey anthropic b64 : GoString) (s : Segment) :
    bindSeg (ascii "DockerComposeB64") b64 (bindSeg (ascii "AnthropicApiKey") anthropic
      (bindSeg (ascii "TailscaleAuthKey") tsKey (bindSeg (ascii "EBSVolumeID") volID s)))
      = resolve volID tsKey anthropic b64 s := by
  cases s with
  | literal t => rfl
  | placeholder n =>
    simp only [bindSeg, resolve]
    split_ifs <;> simp_all [bindSeg]

/-- On a well-formed template, with values that hold no `{`, the render step resolves the
template segment by segment. -/
theorem renderUserData_template (segs : List Segment) (volID tsKey anthropic b64 : GoString)
    (h : ∀ s ∈ segs, s.WellFormed)
    (hv : lbrace ∉ volID) (ht : lbrace ∉ tsKey) (ha : lbrace ∉ anthropic) :
    renderUserData (templateText segs) volID tsKey anthropic b64
      = templateText (segs.map (resolve volID tsKey anthropic b64)) := by
  have m1 : ascii "{{.EBSVolumeID}}" = marker (ascii "EBSVolumeID") := by decide
  have m2 : ascii "{{.TailscaleAuthKey}}" = marker (ascii "TailscaleAuthKey") := by decide
  have m3 : ascii "{{.AnthropicApiKey}}" = marker (ascii "AnthropicApiKey") := by decide
  have m4 : ascii "{{.DockerComposeB64}}" = marker (ascii "DockerComposeB64") := by decide
  have w1 := bindSeg_wellFormed (ascii "EBSVolumeID") volID hv segs h
  have w2 := bindSeg_wellFormed (ascii "TailscaleAuthKey") tsKey ht _ w1
  have w3 := bindSeg_wellFormed (ascii "AnthropicApiKey") anthropic ha _ w2
  unfold renderUserData
  simp only [m1, m2, m3, m4]
  rw [ReplaceAll_template _ _ (by decide) segs h, ReplaceAll_template _ _ (by decide) _ w1,
    ReplaceAll_template _ _ (by decide) _ w2, ReplaceAll_template _ _ (by decide) _ w3]
  simp only [List.map_map]
  congr 1
  apply List.map_congr_left
  intro s _
  exact bindSeg_resolve volID tsKey anthropic b64 s

/-- An occurrence that does not start at the head lies in the tail. -/
theorem infix_cons_marker (A t : GoString) (c : Byte)
    (hp : (marker A).isPrefixOf (c :: t) = false) (h : marker A <:+: c :: t) :
    marker A <:+: t := by
  rcases List.infix_cons_iff.mp h with h1 | h1
  · rw [← List.isPrefixOf_iff_prefix, hp] at h1
    exact absurd h1 (by decide)
  · exact h1

/-- An occurrence of a marker cannot start inside a literal that holds no `{`. -/
theorem infix_literal (A rest : GoString) : ∀ t : GoString, lbrace ∉ t →
    marker A <:+: t ++ rest → marker A <:+: rest
  | [], _, h => h
  | c :: t, hl, h => by
    have hc : c ≠ lbrace := fun e => hl (by simp [e])
    have ht : lbrace ∉ t := fun m => hl (List.mem_cons_of_mem _ m)
    exact infix_literal A rest t ht
      (infix_cons_marker A _ c (isPrefixOf_marker_of_ne A _ c hc) h)

/-- An occurrence of a marker cannot start inside the marker of another name. -/
theorem infix_marker_other (A n rest : GoString) (hA : rbrace ∉ A)
    (hn : lbrace ∉ n ∧ rbrace ∉ n) (hne : n ≠ A) (h : marker A <:+: marker n ++ rest) :
    marker A <:+: rest := by
  have h0 := isPrefixOf_marker_other A n rest hA hn.2 hne
  have hcons : marker n ++ rest
      = lbrace :: (lbrace :: (((46 : Byte) :: (n ++ [rbrace, rbrace])) ++ rest)) := by
    simp [marker]
  have h1 := isPrefixOf_marker_dot A ((n ++ [rbrace, rbrace]) ++ rest)
  have hlit : lbrace ∉ ((46 : Byte) :: (n ++ [rbrace, rbrace])) := by
    intro hm
    simp only [List.mem_cons, List.mem_append, List.mem_singleton, List.not_mem_nil, or_false] at hm
    rcases hm with h | h | h | h
    · exact absurd h (by decide)
    · exact hn.1 h
    · exact absurd h (by decide)
    · exact absurd h (by decide)
  rw [hcons] at h0 h
  have s1 := infix_cons_marker A _ lbrace h0 h
  have s2 := infix_cons_marker A _ lbrace h1 s1
  exact infix_literal A rest _ hlit s2

/-- A well-formed template without the placeholder `A` holds no occurrence of its marker. -/
theorem not_infix_template (A : GoString) (hA : rbrace ∉ A) : ∀ segs : List Segment,
    (∀ s ∈ segs, s.WellFormed) → (∀ s ∈ segs, s ≠ .placeholder A) →
    ¬ marker A <:+: templateText segs
  | [], _, _ => by
    intro h
    have := List.eq_nil_of_infix_nil h
    simp [marker] at this
  | .literal t :: segs, hw, hn => by
    intro h
    have ht : lbrace ∉ t := hw (.literal t) (List.mem_cons_self _ _)
    exact not_infix_template A hA segs (fun s hs => hw s (List.mem_cons_of_mem _ hs))
      (fun s hs => hn s (List.mem_cons_of_mem _ hs)) (infix_literal A _ t ht h)
  | .placeholder n :: segs, hw, hn => by
    intro h
    have hwn : lbrace ∉ n ∧ rbrace ∉ n := hw (.placeholder n) (List.mem_cons_self _ _)
    have hne : n ≠ A := fun e => hn (.placeholder n) (List.mem_cons_self _ _) (by rw [e])
    exact not_infix_template A hA segs (fun s hs => hw s (List.mem_cons_of_mem _ hs))
      (fun s hs => hn s (List.mem_cons_of_mem _ hs)) (infix_marker_other A n _ hA hwn hne h)

/-- Resolving with values that hold no `{` keeps a segment well-formed. -/
theorem resolve_wellFormed (volID tsKey anthropic b64 : GoString) (hv : lbrace ∉ volID)
    (ht : lbrace ∉ tsKey) (ha : lbrace ∉ anthropic) (hb : lbrace ∉ b64) (s : Segment)
    (h : s.WellFormed) : (resolve volID tsKey anthropic b64 s).WellFormed := by
  cases s with
  | literal t => exact h
  | placeholder n =>
    simp only [resolve]
    split_ifs <;> simp_all [Segment.WellFormed]

/-- A resolved segment is never one of the four recognised placeholders. -/
theorem resolve_ne_placeholder (volID tsKey anthropic b64 A : GoString)
    (hA : A ∈ [ascii "EBSVolumeID", ascii "TailscaleAuthKey", ascii "AnthropicApiKey",
      ascii "DockerComposeB64"]) (s : Segment) :
    resolve volID tsKey anthropic b64 s ≠ .placeholder A := by
  cases s with
  | literal t => simp [resolve]
  | placeholder n =>
    simp only [resolve]
    simp only [List.mem_cons, List.not_mem_nil, or_false] at hA
    split_ifs
    · simp
    · simp
    · simp
    · simp
    · intro e
      injection e with e
      subst e
      tauto

/-! ## Claims about the render step -/

/-- C1 as stated does not hold: a substituted value is copied into the script as it is, so
a Tailscale key whose text is `{{.EBSVolumeID}}` leaves that marker in the rendered script
(the volume identifier was substituted one step earlier). -/
theorem render_keeps_marker_from_value :
    ascii "{{.EBSVolumeID}}" ∈ placeholderMarkers ∧
    ascii "{{.EBSVolumeID}}" <:+:
      renderUserData (ascii "up {{.TailscaleAuthKey}}") (ascii "vol-1")
        (ascii "{{.EBSVolumeID}}") (ascii "sk-ant-1")
        (base64.EncodeToString (ascii "services: x")) := by
  decide

/-- A marker can also arise from the text around a substituted placeholder, with values
that hold no brace at all: `{{.EBS{{.TailscaleAuthKey}}ID}}` with the key `Volume`. -/
theorem render_joins_marker_around_value :
    renderUserData (ascii "{{.EBS{{.TailscaleAuthKey}}ID}}") (ascii "vol-1") (ascii "Volume")
      (ascii "sk-ant-1") (base64.EncodeToString (ascii "services: x"))
      = ascii "{{.EBSVolumeID}}" := by
  decide

/-- C1 (amended): for every template that is a sequence of literal segments holding no `{`
and of `{{.Name}}` placeholders whose names hold no brace, for every volume identifier,
Tailscale key and Anthropic key holding no `{`, and for every compose file, the script the
render step produces contains no occurrence of any of the four placeholder markers. -/
theorem render_leaves_no_marker (segs : List Segment) (volID tsKey anthropic : GoString)
    (compose : List Byte) (h : ∀ s ∈ segs, s.WellFormed)
    (hv : lbrace ∉ volID) (ht : lbrace ∉ tsKey) (ha : lbrace ∉ anthropic) :
    ∀ m ∈ placeholderMarkers,
      ¬ m <:+: renderUserData (templateText segs) volID tsKey anthropic
        (base64.EncodeToString compose) := by
  intro m hm
  rw [renderUserData_template segs volID tsKey anthropic _ h hv ht ha]
  have hb := lbrace_not_mem_EncodeToString compose
  have key : ∀ A ∈ [ascii "EBSVolumeID", ascii "TailscaleAuthKey", ascii "AnthropicApiKey",
      ascii "DockerComposeB64"], rbrace ∉ A →
      ¬ marker A <:+: templateText
        (segs.map (resolve volID tsKey anthropic (base64.EncodeToString compose))) := by
    intro A hA hr
    apply not_infix_template A hr
    · intro s hs
      rw [List.mem_map] at hs
      obtain ⟨s0, hs0, rfl⟩ := hs
      exact resolve_wellFormed _ _ _ _ hv ht ha hb s0 (h s0 hs0)
    · intro s hs
      rw [List.mem_map] at hs
      obtain ⟨s0, _, rfl⟩ := hs
      exact resolve_ne_placeholder _ _ _ _ A hA s0
  have m1 : ascii "{{.EBSVolumeID}}" = marker (ascii "EBSVolumeID") := by decide
  have m2 : ascii "{{.TailscaleAuthKey}}" = marker (ascii "TailscaleAuthKey") := by decide
  have m3 : ascii "{{.AnthropicApiKey}}" = marker (ascii "AnthropicApiKey") := by decide
  have m4 : ascii "{{.DockerComposeB64}}" = marker (ascii "DockerComposeB64") := by decide
  simp only [placeholderMarkers, List.mem_cons, List.not_mem_nil, or_false] at hm
  rcases hm with rfl | rfl | rfl | rfl
  · rw [m1]; exact key _ (by simp) (by decide)
  · rw [m2]; exact key _ (by simp) (by decide)
  · rw [m3]; exact key _ (by simp) (by decide)
  · rw [m4]; exact key _ (by simp) (by decide)

/-- The amended C1 at the template `mount {{.EBSVolumeID}}; echo {{.Foo}}`: the rendered
script holds no `{{.EBSVolumeID}}`. -/
theorem render_leaves_no_marker_witness :
    ¬ ascii "{{.EBSVolumeID}}" <:+:
      renderUserData (templateText sampleSegments) (ascii "vol-1") (ascii "tskey-1")
        (ascii "sk-ant-1") (base64.EncodeToString (ascii "services: x")) :=
  render_leaves_no_marker sampleSegments (ascii "vol-1") (ascii "tskey-1") (ascii "sk-ant-1")
    (ascii "services: x") (by decide) (by decide) (by decide) (by decide) _ (by decide)

/-- C8 as stated does not hold: the boot script `echo {{.Foo}}` names a placeholder that
has no binding, and the render step returns it unchanged; the run succeeds and the launch
template carries the encoding of that text as its user data. -/
theorem unknown_placeholder_is_passed_through :
    renderUserData (ascii "echo {{.Foo}}") (ascii "vol-1") (ascii "tskey-1") (ascii "sk-ant-1")
      (base64.EncodeToString (ascii "services: x")) = ascii "echo {{.Foo}}" ∧
    (main unknownPlaceholderEnv).result = .ok () ∧
    Resource.launchTemplate "openclaw-lt"
      { imageId := ascii "ami-1", instanceType := ascii "t3.medium",
        userData := some (base64.EncodeToString (ascii "echo {{.Foo}}")),
        vpcSecurityGroupIds := [some (ascii "sg-1")],
        iamInstanceProfileArn := some (ascii "arn:prof-1"),
        blockDeviceMappings :=
          [{ deviceName := ascii "/dev/sda1", volumeSize := 20, volumeType := ascii "gp3" }],
        tags := [("Name", ascii "openclaw-vps")] } ∈ (main unknownPlaceholderEnv).declared := by
  decide

/-- C8 (amended): rendering never fails. For every template that is a sequence of literal
segments holding no `{` and of `{{.Name}}` placeholders whose names hold no brace, and for
values of the volume identifier and the two keys holding no `{`, the script is the template
with each of the four recognised placeholders replaced by its value and every other
placeholder left in the text as it was written. -/
theorem render_passes_unknown_placeholders (segs : List Segment)
    (volID tsKey anthropic dockerComposeB64 : GoString) (h : ∀ s ∈ segs, s.WellFormed)
    (hv : lbrace ∉ volID) (ht : lbrace ∉ tsKey) (ha : lbrace ∉ anthropic) :
    renderUserData (templateText segs) volID tsKey anthropic dockerComposeB64
      = templateText (segs.map (resolve volID tsKey anthropic dockerComposeB64)) ∧
    ∀ n, n ∉ [ascii "EBSVolumeID", ascii "TailscaleAuthKey", ascii "AnthropicApiKey",
        ascii "DockerComposeB64"] →
      (resolve volID tsKey anthropic dockerComposeB64 (.placeholder n)).text = marker n := by
  refine ⟨renderUserData_template segs volID tsKey anthropic dockerComposeB64 h hv ht ha, ?_⟩
  intro n hn
  simp only [List.mem_cons, List.not_mem_nil, or_false, not_or] at hn
  simp [resolve, hn.1, hn.2.1, hn.2.2.1, hn.2.2.2, Segment.text]

/-- The amended C8 at the template `mount {{.EBSVolumeID}}; echo {{.Foo}}`. -/
theorem render_passes_unknown_placeholders_witness :
    renderUserData (ascii "mount {{.EBSVolumeID}}; echo {{.Foo}}") (ascii "vol-1")
      (ascii "tskey-1") (ascii "sk-ant-1") (ascii "c2VydmljZXM6IHg=")
      = ascii "mount vol-1; echo {{.Foo}}" :=
  (render_passes_unknown_placeholders sampleSegments (ascii "vol-1") (ascii "tskey-1")
    (ascii "sk-ant-1") (ascii "c2VydmljZXM6IHg=") (by decide) (by decide) (by decide)
    (by decide)).1.trans (by decide)

/-! ## The shape of a run -/

/-- The volume declaration: the fixed properties, and the seed source as `snapshotId`
decides it. -/
theorem volumeDecl_args (az snapshotId : GoString) :
    ∃ a : VolumeArgs, volumeDecl az snapshotId = .volume "openclaw-data" a ∧
      a.snapshotId = (if snapshotId = [] then none else some snapshotId) ∧
      a.size = 20 ∧ a.volumeType = ascii "gp3" ∧ a.tags = [("Name", ascii "openclaw-data")] ∧
      a.availabilityZone = az := by
  unfold volumeDecl
  simp only []
  split
  · next h => exact ⟨_, rfl, by simp [h], rfl, rfl, rfl, rfl⟩
  · next h =>
    have h2 : snapshotId = [] := by simpa using h
    exact ⟨_, rfl, by simp [h2], rfl, rfl, rfl, rfl⟩

/-- Every declared resource is one of the seven declarations of `main.go`; the volume and
the scaling group are declared for the first zone the lookup returned. -/
theorem mem_declared (env : Env) (r : Resource) (h : r ∈ (main env).declared) :
    r = securityGroupDecl ∨ r = roleDecl ∨ (∃ role, r = rolePolicyDecl role) ∨
    (∃ role, r = instanceProfileDecl role) ∨
    (∃ azs az tl, env.getAvailabilityZones = .ok azs ∧ azs.names = az :: tl ∧
      r = volumeDecl az (cfgGet env "snapshotId")) ∨
    (∃ ami userDataB64 sg instanceProfile, r = launchTemplateDecl ami
      (if cfgGet env "instanceType" = [] then ascii "t3.medium" else cfgGet env "instanceType")
      userDataB64 sg instanceProfile) ∨
    (∃ azs az tl lt, env.getAvailabilityZones = .ok azs ∧ azs.names = az :: tl ∧
      r = groupDecl az lt) := by
  unfold main at h
  simp only [] at h
  generalize (if cfgGet env "instanceType" = [] then ascii "t3.medium"
    else cfgGet env "instanceType") = ty at h ⊢
  repeat' split at h
  all_goals simp only [abort, List.not_mem_nil, List.mem_cons, List.mem_append, List.cons_append,
    List.nil_append, or_false] at h
  all_goals try casesm* _ ∨ _
  all_goals subst_vars
  all_goals
    first
    | exact Or.inl rfl
    | exact Or.inr (Or.inl rfl)
    | exact Or.inr (Or.inr (Or.inl ⟨_, rfl⟩))
    | exact Or.inr (Or.inr (Or.inr (Or.inl ⟨_, rfl⟩)))
    | exact Or.inr (Or.inr (Or.inr (Or.inr (Or.inl ⟨_, _, _, ‹_›, ‹_›, rfl⟩))))
    | exact Or.inr (Or.inr (Or.inr (Or.inr (Or.inr (Or.inl ⟨_, _, _, _, rfl⟩)))))
    | exact Or.inr (Or.inr (Or.inr (Or.inr (Or.inr (Or.inr ⟨_, _, _, _, ‹_›, ‹_›, rfl⟩)))))

/-- A run whose callback returned `nil` succeeds, or fails on rejected registrations. -/
theorem finish_cases (rs : List Registered) :
    finish rs = .ok () ∨ ∃ errs, errs ≠ [] ∧ finish rs = .error (.rejected errs) := by
  unfold finish
  split
  · exact Or.inl rfl
  · exact Or.inr ⟨_, List.cons_ne_nil _ _, rfl⟩

/-- A run that succeeds has had every registration accepted. -/
theorem finish_ok : ∀ rs : List Registered, finish rs = .ok () →
    ∀ r ∈ rs, ∃ h, r.answer = .ok h
  | [], _, r, hr => by cases hr
  | r0 :: rs, hf, r, hr => by
    unfold finish at hf
    cases h0 : r0.answer with
    | error e => simp [rejections, h0] at hf
    | ok h =>
      simp only [rejections, h0] at hf
      rcases List.mem_cons.mp hr with rfl | hr
      · exact ⟨h, h0⟩
      · exact finish_ok rs (by unfold finish; exact hf) r hr

/-- Either the callback of a run stops early, with an error of its own and before any
`ctx.Export`, or it reaches its end: then the seven resources have been declared in order,
the four `ctx.Export` calls have been made, and the run ends as the engine's answers to the
seven registrations decide. -/
theorem main_outcome (env : Env) :
    (∃ err, (main env).result = .error err ∧ (∀ errs, err ≠ .rejected errs) ∧
      (main env).exports = []) ∨
    (∃ (azs : GetAvailabilityZonesResult) (az : GoString) (tl : List GoString)
        (ami : LookupAmiResult) (userDataB64 : Output GoString)
        (sg volume role rolePolicy instanceProfile lt asg : Registered),
        env.getAvailabilityZones = .ok azs ∧ azs.names = az :: tl ∧
        (main env).declared = [securityGroupDecl, volumeDecl az (cfgGet env "snapshotId"),
          roleDecl, rolePolicyDecl role, instanceProfileDecl role,
          launchTemplateDecl ami
            (if cfgGet env "instanceType" = [] then ascii "t3.medium"
              else cfgGet env "instanceType") userDataB64 sg instanceProfile,
          groupDecl az lt] ∧
        (main env).exports = [("asgName", asg.Name), ("volumeId", volume.ID),
          ("securityGroupId", sg.ID), ("availabilityZone", some az)] ∧
        (main env).result = finish [sg, volume, role, rolePolicy, instanceProfile, lt, asg]) := by
  unfold main
  simp only []
  generalize (if cfgGet env "instanceType" = [] then ascii "t3.medium"
    else cfgGet env "instanceType") = ty
  repeat' split
  all_goals
    first
    | exact Or.inl ⟨_, rfl, fun _ h => RunError.noConfusion h, rfl⟩
    | exact Or.inr ⟨_, _, _, _, _, _, _, _, _, _, _, _, ‹_›, ‹_›, rfl, rfl, rfl⟩

/-- A successful run has reached the end of the callback. -/
theorem main_ok (env : Env) (hok : (main env).result = .ok ()) :
    ∃ (azs : GetAvailabilityZonesResult) (az : GoString) (tl : List GoString)
      (ami : LookupAmiResult) (userDataB64 : Output GoString)
      (sg volume role instanceProfile lt asg : Registered),
      env.getAvailabilityZones = .ok azs ∧ azs.names = az :: tl ∧
      (main env).declared = [securityGroupDecl, volumeDecl az (cfgGet env "snapshotId"),
        roleDecl, rolePolicyDecl role, instanceProfileDecl role,
        launchTemplateDecl ami
          (if cfgGet env "instanceType" = [] then ascii "t3.medium"
            else cfgGet env "instanceType") userDataB64 sg instanceProfile,
        groupDecl az lt] ∧
      (main env).exports = [("asgName", asg.Name), ("volumeId", volume.ID),
        ("securityGroupId", sg.ID), ("availabilityZone", some az)] := by
  rcases main_outcome env with ⟨err, h1, _⟩ |
    ⟨azs, az, tl, ami, ud, sg, volume, role, _, ip, lt, asg, h1, h2, hd, he, _⟩
  · rw [h1] at hok
    cases hok
  · exact ⟨azs, az, tl, ami, ud, sg, volume, role, ip, lt, asg, h1, h2, hd, he⟩

/-! ## Claims about the pipeline -/

/-- C3: for every configuration in which a required secret (`tailscaleAuthKey` or
`anthropicApiKey`) is absent, the run aborts with a missing-configuration error naming an
absent key, before any resource declaration: no resource is declared, no output exported. -/
theorem missing_secret_aborts_before_declaration (env : Env)
    (h : env.config "tailscaleAuthKey" = none ∨ env.config "anthropicApiKey" = none) :
    (∃ key, env.config key = none ∧ (main env).result = .error (.missingConfiguration key)) ∧
    (main env).declared = [] ∧ (main env).exports = [] := by
  unfold main
  simp only []
  rcases h with h | h
  · simp only [h, abort, and_self, and_true]
    exact ⟨_, h, rfl⟩
  · split
    · next h1 =>
      simp only [abort, and_self, and_true]
      exact ⟨_, h1, rfl⟩
    · simp only [h, abort, and_self, and_true]
      exact ⟨_, h, rfl⟩

/-- The run without `tailscaleAuthKey` aborts with nothing declared and nothing exported. -/
theorem missing_secret_witness :
    (main missingTailscaleEnv).declared = [] ∧ (main missingTailscaleEnv).exports = [] :=
  (missing_secret_aborts_before_declaration missingTailscaleEnv (Or.inl (by decide))).2

/-- C4: for every configuration, if the machine-image lookup reports an error (it does so
when no image matches), the run aborts with no resource declared and no output exported;
the error is the lookup's own whenever the lookup is reached, that is, whenever both
required secrets are set. -/
theorem ami_lookup_error_aborts (env : Env) (err : String) (h : env.lookupAmi = .error err) :
    (∃ e, (main env).result = .error e) ∧
    ((env.config "tailscaleAuthKey").isSome → (env.config "anthropicApiKey").isSome →
      (main env).result = .error (.returned err)) ∧
    (main env).declared = [] ∧ (main env).exports = [] := by
  unfold main
  simp only []
  split
  · next h1 => simp [abort, h1]
  · split
    · next h1 h2 => simp [abort, h2]
    · simp [abort, h]

/-- The run in which no image matches ends with the lookup's error. -/
theorem ami_lookup_error_witness :
    (main noAmiEnv).result = .error (.returned "no matching AMI") ∧
    (main noAmiEnv).declared = [] :=
  have h := ami_lookup_error_aborts noAmiEnv "no matching AMI" rfl
  ⟨h.2.1 (by decide) (by decide), h.2.2.1⟩

/-- C5: the launch template's instance type is the configured `instanceType` when that
key is set to a non-empty string and `t3.medium` when it is unset; a successful run
declares the launch template. -/
theorem launch_template_instance_type (env : Env) :
    ((main env).result = .ok () →
      ∃ args, Resource.launchTemplate "openclaw-lt" args ∈ (main env).declared) ∧
    ∀ name args, Resource.launchTemplate name args ∈ (main env).declared →
      (∀ s, env.config "instanceType" = some s → s ≠ [] → args.instanceType = s) ∧
      (env.config "instanceType" = none → args.instanceType = ascii "t3.medium") := by
  constructor
  · intro h
    obtain ⟨_, _, _, _, _, _, _, _, _, _, _, _, _, hd, _⟩ := main_ok env h
    rw [hd]
    exact ⟨_, List.Mem.tail _ (List.Mem.tail _ (List.Mem.tail _ (List.Mem.tail _
      (List.Mem.tail _ (List.Mem.head _)))))⟩
  · intro name args hm
    rcases mem_declared env _ hm with h | h | ⟨_, h⟩ | ⟨_, h⟩ | ⟨_, az, _, _, _, h⟩ |
      ⟨ami, ud, sg, ip, h⟩ | ⟨_, _, _, _, _, _, h⟩
    · simp [securityGroupDecl] at h
    · simp [roleDecl] at h
    · simp [rolePolicyDecl] at h
    · simp [instanceProfileDecl] at h
    · obtain ⟨a, ha, _⟩ := volumeDecl_args az (cfgGet env "snapshotId")
      rw [ha] at h
      cases h
    · unfold launchTemplateDecl at h
      injection h with _ h
      subst h
      constructor
      · intro s hs hne
        simp [cfgGet, hs, hne]
      · intro hn
        simp [cfgGet, hn]
    · simp [groupDecl] at h

/-- With `instanceType` unset the launch template is declared with `t3.medium`; set to
`t3.large`, with `t3.large`. -/
theorem launch_template_instance_type_witness :
    (∃ args, Resource.launchTemplate "openclaw-lt" args ∈ (main sampleEnv).declared ∧
      args.instanceType = ascii "t3.medium") ∧
    (∃ args, Resource.launchTemplate "openclaw-lt" args ∈ (main configuredEnv).declared ∧
      args.instanceType = ascii "t3.large") :=
  have h1 := launch_template_instance_type sampleEnv
  have h2 := launch_template_instance_type configuredEnv
  ⟨(h1.1 (by decide)).imp fun a ha => ⟨ha, (h1.2 _ a ha).2 (by decide)⟩,
    (h2.1 (by decide)).imp fun a ha => ⟨ha, (h2.2 _ a ha).1 (ascii "t3.large") (by decide)
      (by decide)⟩⟩

/-- C6: the declared volume's seed source is the snapshot identifier (a non-empty string)
supplied as `snapshotId`, and is not set when `snapshotId` is omitted (an empty value
counts as omitted: `cfg.Get` gives the empty string for a key that is not set); in every
case the volume has size 20, type `gp3`, the `Name` tag `openclaw-data`, and the first zone
the lookup returned; a successful run declares the volume. -/
theorem volume_snapshot_seed (env : Env) :
    ((main env).result = .ok () →
      ∃ args, Resource.volume "openclaw-data" args ∈ (main env).declared) ∧
    ∀ name args, Resource.volume name args ∈ (main env).declared →
      (∀ s, env.config "snapshotId" = some s → s ≠ [] → args.snapshotId = some s) ∧
      (env.config "snapshotId" = none ∨ env.config "snapshotId" = some [] →
        args.snapshotId = none) ∧
      args.size = 20 ∧ args.volumeType = ascii "gp3" ∧
      args.tags = [("Name", ascii "openclaw-data")] ∧
      ∃ azs, env.getAvailabilityZones = .ok azs ∧
        azs.names.head? = some args.availabilityZone := by
  constructor
  · intro h
    obtain ⟨_, az, _, _, _, _, _, _, _, _, _, _, _, hd, _⟩ := main_ok env h
    obtain ⟨a, ha, _⟩ := volumeDecl_args az (cfgGet env "snapshotId")
    rw [hd, ha]
    exact ⟨a, by simp⟩
  · intro name args hm
    rcases mem_declared env _ hm with h | h | ⟨_, h⟩ | ⟨_, h⟩ | ⟨azs, az, tl, h1, h2, h⟩ |
      ⟨_, _, _, _, h⟩ | ⟨_, _, _, _, _, _, h⟩
    · simp [securityGroupDecl] at h
    · simp [roleDecl] at h
    · simp [rolePolicyDecl] at h
    · simp [instanceProfileDecl] at h
    · obtain ⟨a, ha, hs, h3, h4, h5, h6⟩ := volumeDecl_args az (cfgGet env "snapshotId")
      rw [ha] at h
      injection h with _ h
      subst h
      refine ⟨?_, ?_, h3, h4, h5, azs, h1, ?_⟩
      · intro s hc hne
        simp [hs, cfgGet, hc, hne]
      · intro hn
        rcases hn with hn | hn <;> simp [hs, cfgGet, hn]
      · simp [h2, h6]
    · simp [launchTemplateDecl] at h
    · simp [groupDecl] at h

/-- With `snapshotId` set to `snap-123` the volume is seeded from `snap-123`; with it
omitted the volume has no seed source. -/
theorem volume_snapshot_seed_witness :
    (∃ args, Resource.volume "openclaw-data" args ∈ (main configuredEnv).declared ∧
      args.snapshotId = some (ascii "snap-123")) ∧
    (∃ args, Resource.volume "openclaw-data" args ∈ (main sampleEnv).declared ∧
      args.snapshotId = none) :=
  have h1 := volume_snapshot_seed configuredEnv
  have h2 := volume_snapshot_seed sampleEnv
  ⟨(h1.1 (by decide)).imp fun a ha => ⟨ha, (h1.2 _ a ha).1 (ascii "snap-123") (by decide)
      (by decide)⟩,
    (h2.1 (by decide)).imp fun a ha => ⟨ha, (h2.2 _ a ha).2.1 (Or.inl (by decide))⟩⟩

/-- C7 as stated does not hold: when the engine rejects the role policy, no constructor
returns an error, the callback reaches its end and makes the four `ctx.Export` calls, and
the run fails afterwards: a failing run with all four outputs exported. -/
theorem rejected_run_still_exports :
    policyRejectedEnv.register (rolePolicyDecl { answer := acceptAll roleDecl })
      = .error "policy rejected" ∧
    (main policyRejectedEnv).result = .error (.rejected ["policy rejected"]) ∧
    (main policyRejectedEnv).declared.length = 7 ∧
    (main policyRejectedEnv).exports
      = [("asgName", some (ascii "openclaw-asg-1")), ("volumeId", some (ascii "vol-1")),
        ("securityGroupId", some (ascii "sg-1")),
        ("availabilityZone", some (ascii "eu-north-1a"))] := by
  decide

/-- C7 (amended): the names the callback exports with `ctx.Export` are exactly `asgName`,
`volumeId`, `securityGroupId`, `availabilityZone` after every run whose callback reaches
its end, that is, after every successful run, where all four exported values resolve, and
after every run that fails only because the engine rejects declared resources; nothing is
exported after every run whose callback stops early with an error of its own
(configuration, lookup, file read, an error returned by a constructor). No run exports a
part of the four. -/
theorem exports_follow_callback (env : Env) :
    (((main env).exports.map Prod.fst
        = ["asgName", "volumeId", "securityGroupId", "availabilityZone"] ∧
      ((main env).result = .ok () ∨
        ∃ errs, errs ≠ [] ∧ (main env).result = .error (.rejected errs))) ∨
    ((main env).exports = [] ∧
      ∃ err, (main env).result = .error err ∧ ∀ errs, err ≠ .rejected errs)) ∧
    ((main env).result = .ok () → ∀ p ∈ (main env).exports, ∃ v, p.2 = some v) := by
  rcases main_outcome env with ⟨err, h1, h2, h3⟩ |
    ⟨_, _, _, _, _, sg, volume, role, rolePolicy, ip, lt, asg, _, _, _, he, hr⟩
  · refine ⟨Or.inr ⟨h3, err, h1, h2⟩, ?_⟩
    intro hok
    rw [h1] at hok
    cases hok
  · refine ⟨Or.inl ⟨by rw [he]; rfl, ?_⟩, ?_⟩
    · rw [hr]
      exact finish_cases _
    · intro hok p hp
      rw [hr] at hok
      obtain ⟨h1, e1⟩ := finish_ok _ hok asg (by simp)
      obtain ⟨h2, e2⟩ := finish_ok _ hok volume (by simp)
      obtain ⟨h3, e3⟩ := finish_ok _ hok sg (by simp)
      rw [he] at hp
      simp only [List.mem_cons, List.not_mem_nil, or_false] at hp
      rcases hp with rfl | rfl | rfl | rfl
      · exact ⟨h1.name, by simp [Registered.Name, e1]⟩
      · exact ⟨h2.id, by simp [Registered.ID, e2]⟩
      · exact ⟨h3.id, by simp [Registered.ID, e3]⟩
      · exact ⟨_, rfl⟩

/-- The successful run exports the four names; the run without `tailscaleAuthKey` exports
nothing. -/
theorem exports_follow_callback_witness :
    (main sampleEnv).exports.map Prod.fst
      = ["asgName", "volumeId", "securityGroupId", "availabilityZone"] ∧
    (main missingTailscaleEnv).exports = [] := by
  constructor
  · rcases (exports_follow_callback sampleEnv).1 with h | ⟨_, e, h, _⟩
    · exact h.1
    · have hok : (main sampleEnv).result = .ok () := by decide
      rw [hok] at h
      cases h
  · rcases (exports_follow_callback missingTailscaleEnv).1 with ⟨_, h | ⟨errs, _, h⟩⟩ | h
    · exact absurd h (by decide)
    · have hr : (main missingTailscaleEnv).result
          = .error (.missingConfiguration "tailscaleAuthKey") := by decide
      rw [hr] at h
      cases h
    · exact h.1

/-- C9 as stated does not hold: when the availability-zone lookup fails the run returns
its error with the security group already declared, and when `docker-compose.yml` cannot
be read the run returns the error with five resources already declared. -/
theorem abort_after_declarations :
    zoneLookupFailsEnv.getAvailabilityZones = .error "zones unavailable" ∧
    (main zoneLookupFailsEnv).result = .error (.returned "zones unavailable") ∧
    (main zoneLookupFailsEnv).declared = [securityGroupDecl] ∧
    unreadableComposeEnv.readFile "docker-compose.yml" = .error "no such file" ∧
    (main unreadableComposeEnv).result
      = .error (.wrapped "reading docker-compose.yml" "no such file") ∧
    (main unreadableComposeEnv).declared.length = 5 := by
  decide

/-- C9 (amended): a run whose callback stops early (missing configuration key, failed
lookup, unreadable template file) ends with an error and exports nothing, but resources may
already be declared when it stops. A missing configuration key or a failed machine-image
lookup stops it with no resource declared; a failed availability-zone lookup stops it with
the lookup's error after exactly one declaration, the security group; an unreadable
`docker-compose.yml` or `user-data.sh` makes the run fail, and a run that fails on reading
one of the two files has declared exactly five resources (security group, volume, role,
role policy, instance profile). -/
theorem fail_fast_abort_points (env : Env) :
    (∀ err, (main env).result = .error err → (∀ errs, err ≠ .rejected errs) →
      (main env).exports = []) ∧
    ((env.config "tailscaleAuthKey" = none ∨ env.config "anthropicApiKey" = none ∨
        ∃ e, env.lookupAmi = .error e) →
      (∃ err, (main env).result = .error err ∧ ∀ errs, err ≠ .rejected errs) ∧
      (main env).declared = []) ∧
    (∀ e ts an ami, env.config "tailscaleAuthKey" = some ts →
      env.config "anthropicApiKey" = some an → env.lookupAmi = .ok ami →
      env.construct securityGroupDecl = none → env.getAvailabilityZones = .error e →
      (main env).result = .error (.returned e) ∧ (main env).declared = [securityGroupDecl]) ∧
    (∀ e, env.readFile "docker-compose.yml" = .error e ∨ env.readFile "user-data.sh" = .error e →
      ∃ err, (main env).result = .error err ∧ ∀ errs, err ≠ .rejected errs) ∧
    (∀ ctx e, (main env).result = .error (.wrapped ctx e) →
      ((ctx = "reading docker-compose.yml" ∧ env.readFile "docker-compose.yml" = .error e) ∨
        (ctx = "reading user-data.sh" ∧ env.readFile "user-data.sh" = .error e)) ∧
      ∃ az role, (main env).declared = [securityGroupDecl,
        volumeDecl az (cfgGet env "snapshotId"), roleDecl, rolePolicyDecl role,
        instanceProfileDecl role]) := by
  refine ⟨?_, ?_, ?_, ?_, ?_⟩
  · intro err h hne
    rcases main_outcome env with ⟨_, _, _, h2⟩ |
      ⟨_, _, _, _, _, _, _, _, _, _, _, _, _, _, _, _, hr⟩
    · exact h2
    · rcases finish_cases _ with h1 | ⟨errs, _, h1⟩
      · rw [hr, h1] at h
        cases h
      · rw [hr, h1] at h
        injection h with h
        exact absurd h.symm (hne errs)
  · intro he
    unfold main
    simp only []
    split
    · exact ⟨⟨_, rfl, fun _ h => RunError.noConfusion h⟩, rfl⟩
    · next hts =>
      split
      · exact ⟨⟨_, rfl, fun _ h => RunError.noConfusion h⟩, rfl⟩
      · next han =>
        split
        · exact ⟨⟨_, rfl, fun _ h => RunError.noConfusion h⟩, rfl⟩
        · next hami =>
          exfalso
          rcases he with h | h | ⟨e, h⟩
          · rw [hts] at h
            cases h
          · rw [han] at h
            cases h
          · rw [hami] at h
            cases h
  · intro e ts an ami h1 h2 h3 h4 h5
    unfold main
    simp only [h1, h2, h3, h4, h5, New, abort, and_self]
  · intro e he
    unfold main
    simp only []
    repeat' split
    all_goals
      first
      | exact ⟨_, rfl, fun _ h => RunError.noConfusion h⟩
      | exact absurd ((Or.resolve_left he (fun h1 =>
            absurd (h1.symm.trans ‹env.readFile "docker-compose.yml" = Except.ok _›)
              (by simp))).symm.trans ‹env.readFile "user-data.sh" = Except.ok _›) (by simp)
  · intro ctx e
    rcases main_outcome env with ⟨_, _, _, _⟩ |
      ⟨_, _, _, _, _, _, _, _, _, _, _, _, _, _, _, _, hr⟩
    swap
    · intro h
      rcases finish_cases _ with h1 | ⟨errs, _, h1⟩
      · rw [hr, h1] at h
        cases h
      · rw [hr, h1] at h
        cases h
    unfold main
    simp only []
    repeat' split
    all_goals simp only [abort, reduceCtorEq, Except.error.injEq, RunError.wrapped.injEq,
      false_implies, List.cons_append, List.nil_append]
    all_goals
      first
      | (rintro ⟨rfl, rfl⟩
         first
         | exact ⟨Or.inl ⟨rfl, ‹_›⟩, _, _, rfl⟩
         | exact ⟨Or.inr ⟨rfl, ‹_›⟩, _, _, rfl⟩)
      | (intro h
         rcases finish_cases _ with h1 | ⟨errs, _, h1⟩
         · rw [h1] at h
           cases h
         · rw [h1] at h
           cases h)

/-- The amended C9 at the run in which `user-data.sh` cannot be read. -/
theorem fail_fast_abort_points_witness :
    (main unreadableUserDataEnv).exports = [] ∧
    ∃ az role, (main unreadableUserDataEnv).declared = [securityGroupDecl,
      volumeDecl az (cfgGet unreadableUserDataEnv "snapshotId"), roleDecl, rolePolicyDecl role,
      instanceProfileDecl role] :=
  have h := fail_fast_abort_points unreadableUserDataEnv
  ⟨h.1 _ (by decide : (main unreadableUserDataEnv).result
      = .error (.wrapped "reading user-data.sh" "no such file")) (fun _ e => by cases e),
    (h.2.2.2.2 "reading user-data.sh" "no such file" (by decide)).2⟩

/-- C10: for every non-empty zone list the lookup returns, the zone used is the first
name of the list: every declared volume is placed in it, every declared scaling group has
it as its only zone, and the value exported as `availabilityZone` is it; a successful run
declares the volume and the group and exports the zone. -/
theorem zone_is_first_listed (env : Env) (azs : GetAvailabilityZonesResult) (z : GoString)
    (rest : List GoString) (h : env.getAvailabilityZones = .ok azs) (hz : azs.names = z :: rest) :
    (∀ name args, Resource.volume name args ∈ (main env).declared →
      args.availabilityZone = z) ∧
    (∀ name args, Resource.group name args ∈ (main env).declared →
      args.availabilityZones = [z]) ∧
    (∀ v, ("availabilityZone", v) ∈ (main env).exports → v = some z) ∧
    ((main env).result = .ok () →
      (∃ args, Resource.volume "openclaw-data" args ∈ (main env).declared) ∧
      (∃ args, Resource.group "openclaw-asg" args ∈ (main env).declared) ∧
      ("availabilityZone", some z) ∈ (main env).exports) := by
  have first : ∀ azs2 az tl, env.getAvailabilityZones = .ok azs2 → azs2.names = az :: tl →
      az = z := by
    intro azs2 az tl h1 h2
    rw [h] at h1
    injection h1 with h1
    subst h1
    rw [hz] at h2
    injection h2 with h2 _
    exact h2.symm
  refine ⟨?_, ?_, ?_, ?_⟩
  · intro name args hm
    rcases mem_declared env _ hm with h | h | ⟨_, h⟩ | ⟨_, h⟩ | ⟨azs2, az, tl, h1, h2, h⟩ |
      ⟨_, _, _, _, h⟩ | ⟨_, _, _, _, _, _, h⟩
    · simp [securityGroupDecl] at h
    · simp [roleDecl] at h
    · simp [rolePolicyDecl] at h
    · simp [instanceProfileDecl] at h
    · obtain ⟨a, ha, _, _, _, _, h6⟩ := volumeDecl_args az (cfgGet env "snapshotId")
      rw [ha] at h
      injection h with _ h
      subst h
      rw [h6]
      exact first azs2 az tl h1 h2
    · simp [launchTemplateDecl] at h
    · simp [groupDecl] at h
  · intro name args hm
    rcases mem_declared env _ hm with h | h | ⟨_, h⟩ | ⟨_, h⟩ | ⟨_, az, _, _, _, h⟩ |
      ⟨_, _, _, _, h⟩ | ⟨azs2, az, tl, lt, h1, h2, h⟩
    · simp [securityGroupDecl] at h
    · simp [roleDecl] at h
    · simp [rolePolicyDecl] at h
    · simp [instanceProfileDecl] at h
    · obtain ⟨a, ha, _⟩ := volumeDecl_args az (cfgGet env "snapshotId")
      rw [ha] at h
      cases h
    · simp [launchTemplateDecl] at h
    · unfold groupDecl at h
      injection h with _ h
      subst h
      simp [first azs2 az tl h1 h2]
  · intro v hv
    rcases main_outcome env with ⟨_, _, _, he⟩ |
      ⟨azs2, az, tl, _, _, _, _, _, _, _, _, _, h1, h2, _, he, _⟩
    · rw [he] at hv
      cases hv
    · rw [he] at hv
      simp at hv
      rw [hv, first azs2 az tl h1 h2]
  · intro hok
    obtain ⟨azs2, az, tl, _, _, _, _, _, _, _, _, h1, h2, hd, he⟩ := main_ok env hok
    obtain ⟨a, ha, _⟩ := volumeDecl_args az (cfgGet env "snapshotId")
    have hz2 := first azs2 az tl h1 h2
    refine ⟨⟨a, ?_⟩, ?_, ?_⟩
    · rw [hd, ha]
      simp
    · rw [hd]
      exact ⟨_, List.Mem.tail _ (List.Mem.tail _ (List.Mem.tail _ (List.Mem.tail _
        (List.Mem.tail _ (List.Mem.tail _ (List.Mem.head _))))))⟩
    · rw [he, hz2]
      simp

/-- Of the zones `eu-north-1a`, `eu-north-1b` the first is used throughout. -/
theorem zone_is_first_listed_witness :
    ("availabilityZone", some (ascii "eu-north-1a")) ∈ (main sampleEnv).exports ∧
    (∀ name args, Resource.volume name args ∈ (main sampleEnv).declared →
      args.availabilityZone = ascii "eu-north-1a") ∧
    (∀ name args, Resource.group name args ∈ (main sampleEnv).declared →
      args.availabilityZones = [ascii "eu-north-1a"]) :=
  have h := zone_is_first_listed sampleEnv
    { names := [ascii "eu-north-1a", ascii "eu-north-1b"] } (ascii "eu-north-1a")
    [ascii "eu-north-1b"] rfl rfl
  ⟨(h.2.2.2 (by decide)).2.2, h.1, h.2.1⟩

/-- When the lookup succeeds with an empty zone list, `azs.Names[0]` panics after the
security group has been declared. -/
theorem empty_zone_list_panics :
    (main noZoneEnv).result = .error .indexOutOfRange ∧
    (main noZoneEnv).declared = [securityGroupDecl] ∧ (main noZoneEnv).exports = [] := by
  decide
